import Mathlib

/-!
Shallow embedding of the dispute-agent verification/validation service
(`app/main.py`, `app/validation_service_web3.py`, `app/web3_hedera_helper.py`,
`app/ollama_provider.py`).

External effects (RPC receipt fetches, contract reads, AI chat, transaction
submission) are modelled by an environment record holding each call's outcome
as `Except String α` (an `error` models the Python call raising an exception).
Wall-clock timestamps are passed in as a `now : Nat` argument.  Strings are
treated at the level of Unicode code points, matching Python `len`/indexing;
whitespace and digit classes are modelled over their ASCII members, which is
the alphabet the code actually handles (hex strings, decimal digit runs).
-/

namespace DisputeAgent

/-- Job status strings written into the in-memory `jobs` store:
"processing" / "completed" / "failed". -/
inductive Status where
  | processing
  | completed
  | failed
deriving DecidableEq

/-- The `JobDetails` dataclass from `validation_service_web3.py` (decoded tuple of
the `getJob` contract call).  `multihop_id` holds the hex rendering of the
`bytes32` value. -/
structure JobDetails where
  creator : String
  agent_id : Nat
  budget : Nat
  description : String
  state : Nat
  created_at : Nat
  accept_deadline : Nat
  complete_deadline : Nat
  multihop_id : String
  step : Nat
deriving DecidableEq

/-- One parsed log entry as produced by
`HederaWeb3Helper.get_logs_from_transaction`: hex-string topics and data. -/
structure LogEntry where
  topics : List String
  data : String
deriving DecidableEq

/-- Embedding of `get_logs_from_transaction`: fetch the receipt (modelled by the
`receipt` argument; `error` = the RPC call raised) and keep the logs whose
first topic equals the event-signature hash. -/
def get_logs_from_transaction (receipt : Except String (List LogEntry))
    (event_signature : String) : Except String (List LogEntry) :=
  match receipt with
  | .error e => .error e
  | .ok logs => .ok (logs.filter (fun log => log.topics.head? == some event_signature))

/-- Python `s.startswith("0x")`. -/
def startsWith0x (s : String) : Bool :=
  match s.toList with
  | '0' :: 'x' :: _ => true
  | _ => false

/-- Python `s.startswith("0X")`. -/
def startsWith0X (s : String) : Bool :=
  match s.toList with
  | '0' :: 'X' :: _ => true
  | _ => false

/-- Python `s.lower()` (ASCII case folding, the alphabet of the hex strings
this code compares). -/
def pyLower (s : String) : String := String.mk (s.toList.map Char.toLower)

/-- Python `"0x" + s if not s.startswith("0x") else s` normalisation. -/
def ensure0x (s : String) : String :=
  if startsWith0x s then s else "0x" ++ s

/-- Python `str.ljust(width, c)`: pad on the right up to `width`. -/
def ljust (s : String) (width : Nat) (c : Char) : String :=
  s ++ String.mk (List.replicate (width - s.length) c)

/-- Value of an ASCII hex digit, `none` on any other character. -/
def hexDigitVal (c : Char) : Option Nat :=
  if ('0' ≤ c ∧ c ≤ '9') then some (c.toNat - '0'.toNat)
  else if ('a' ≤ c ∧ c ≤ 'f') then some (c.toNat - 'a'.toNat + 10)
  else if ('A' ≤ c ∧ c ≤ 'F') then some (c.toNat - 'A'.toNat + 10)
  else none

/-- Accumulating hex parse; `none` as soon as a non-hex character occurs. -/
def parseHexDigits : List Char → Nat → Option Nat
  | [], acc => some acc
  | c :: cs, acc =>
    match hexDigitVal c with
    | some d => parseHexDigits cs (acc * 16 + d)
    | none => none

/-- Python `int(s, 16)` on the strings it is applied to here (an optional
`0x` prefix then hex digits); `none` models the `ValueError` raised on
malformed input. -/
def pyIntHex (s : String) : Option Nat :=
  let body := if startsWith0x s || startsWith0X s
              then String.mk (s.toList.drop 2) else s
  if body.length = 0 then none else parseHexDigits body.toList 0

/-- Second element of the topics list (`log['topics'][1]` guarded by
`len(log['topics']) >= 2`). -/
def topic1? (l : List String) : Option String :=
  match l with
  | _ :: t :: _ => some t
  | _ => none

/-- The scan loop of `check_event_in_transaction` over the filtered logs:
`some true` = `return True` was reached, `some false` = the loop finished,
`none` = `int(topics[1], 16)` raised (propagating out of the loop). -/
def scanLogs (job_id_padded : String) (verifier_agent_id : Option Nat) :
    List LogEntry → Option Bool
  | [] => some false
  | log :: rest =>
    if pyLower (ensure0x log.data) == pyLower job_id_padded then
      match verifier_agent_id with
      | none => some true
      | some v =>
        match topic1? log.topics with
        | none => scanLogs job_id_padded verifier_agent_id rest
        | some t =>
          match pyIntHex t with
          | none => none
          | some event_verifier_id =>
            if event_verifier_id == v then some true
            else scanLogs job_id_padded verifier_agent_id rest
    else scanLogs job_id_padded verifier_agent_id rest

/-- Embedding of `ValidationService.check_event_in_transaction`.  The whole body sits in a
`try`/`except` that returns `False`, so the function is total: a failed
receipt fetch or a decoding exception both come out as `false`. -/
def check_event_in_transaction (event_signature : String)
    (receipt : Except String (List LogEntry))
    (job_id : String) (verifier_agent_id : Option Nat) : Bool :=
  match get_logs_from_transaction receipt event_signature with
  | .error _ => false
  | .ok logs =>
    let jid := ensure0x job_id
    let job_id_padded := ljust jid 66 '0'
    match scanLogs job_id_padded verifier_agent_id logs with
    | none => false
    | some b => b

/-- Embedding of `ValidationService.get_job_details`: the `getJob` contract call plus
tuple decoding, with every exception caught and turned into `None`. -/
def get_job_details (callResult : Except String JobDetails) : Option JobDetails :=
  match callResult with
  | .error _ => none
  | .ok jd => some jd

/-- The zero address literal compared against `creator` in
`process_validation`. -/
def zeroAddress : String := "0x0000000000000000000000000000000000000000"

/-- Python `str.strip()` on the ASCII whitespace characters. -/
def pyIsSpace (c : Char) : Bool :=
  c == ' ' || c == '\t' || c == '\n' || c == '\r' || c == '\x0b' || c == '\x0c'

/-- Python `str.strip()`: drop leading and trailing whitespace. -/
def pyStrip (l : List Char) : List Char :=
  ((l.dropWhile pyIsSpace).reverse.dropWhile pyIsSpace).reverse

/-- Maximal runs of decimal digits, in order of occurrence
(`re.findall(r'\d+', s)` restricted to ASCII digits); `acc` holds the
reversed digits of the run currently being read. -/
def digitRunsAux : List Char → List Char → List (List Char)
  | [], acc => if acc.isEmpty then [] else [acc.reverse]
  | c :: cs, acc =>
    if c.isDigit then digitRunsAux cs (c :: acc)
    else if acc.isEmpty then digitRunsAux cs []
    else acc.reverse :: digitRunsAux cs []

/-- First maximal digit run of a character list (`re.findall(r'\d+', s)[0]`
when the list of matches is non-empty). -/
def firstDigitRun (l : List Char) : Option (List Char) :=
  (digitRunsAux l []).head?

/-- Python `int(digits)` on a run of decimal digits. -/
def decDigitsToNat (l : List Char) : Nat :=
  l.foldl (fun acc c => acc * 10 + (c.toNat - '0'.toNat)) 0

/-- Embedding of `main.get_ai_validation_score`.  The Ollama chat call is modelled by
`chatResult` (`error` = the client raised, caught by the function's
`except` and turned into `None`).  The prompt arguments do not influence the
modelled reply but are kept to mirror the source signature. -/
def get_ai_validation_score (context description : String)
    (chatResult : Except String String) : Option Nat :=
  match chatResult with
  | .error _ => none
  | .ok content =>
    let result_text := pyStrip content.toList
    match firstDigitRun result_text with
    | none => none
    | some digits => some (max 0 (min 100 (decDigitsToNat digits)))

/-- External calls the cross-validation pipeline can perform, recorded in
execution order: the receipt fetch of the event check, the `getJob`
contract read, the AI chat call, and the score-recording transaction
submission. -/
inductive PipelineStep where
  | eventCheck
  | jobFetch
  | aiScore
  | writeBack
deriving DecidableEq

/-- Embedding of `ValidationService.record_reputation_score`: validate the score, then
submit the transaction (outcome modelled by `writeTx`).  The second
component records whether a submission was performed; `error` in the first
models the raised `ValueError` / a reverted submission, both caught by
`process_validation`'s outer `except`. -/
def record_reputation_score (writeTx : Except String String)
    (agent_id verifier_agent_id : Nat) (score : Int) :
    Except String String × List PipelineStep :=
  if ¬ (0 ≤ score ∧ score ≤ 100) then
    (.error ("Score must be between 0 and 100, got " ++ toString score), [])
  else
    (writeTx, [PipelineStep.writeBack])

/-- Embedding of `ValidationService.build_ai_context`: deterministic template rendering of
the retrieved job fields. -/
def build_ai_context (job : JobDetails) : String :=
  "Job Validation Context:\n\n" ++
  "Job ID: " ++ job.multihop_id ++ "\n" ++
  "Creator: " ++ job.creator ++ "\n" ++
  "Agent ID: " ++ toString job.agent_id ++ "\n" ++
  "Budget: " ++ toString job.budget ++ " (in smallest unit)\n" ++
  "Description: " ++ job.description ++ "\n" ++
  "State: " ++ toString job.state ++ "\n" ++
  "Created At: " ++ toString job.created_at ++ " (timestamp)\n" ++
  "Accept Deadline: " ++ toString job.accept_deadline ++ " (timestamp)\n" ++
  "Complete Deadline: " ++ toString job.complete_deadline ++ " (timestamp)\n" ++
  "Multihop ID: " ++ job.multihop_id ++ "\n" ++
  "Step: " ++ toString job.step ++ "\n\n" ++
  "Your task is to evaluate the quality and completion of this job based on the description and context provided.\n" ++
  "Provide a reputation score from 0 to 100, where:\n" ++
  "- 0-20: Poor quality or incomplete\n" ++
  "- 21-40: Below average\n" ++
  "- 41-60: Average\n" ++
  "- 61-80: Good quality\n" ++
  "- 81-100: Excellent quality\n\n" ++
  "Consider factors such as:\n" ++
  "1. Job description clarity\n" ++
  "2. Completion status (based on state)\n" ++
  "3. Budget appropriateness\n" ++
  "4. Timeline adherence\n\n" ++
  "Respond with ONLY a number between 0 and 100.\n"

/-- One entry of the in-memory `jobs` store as written by the
cross-validation path (`process_validation` in `main.py`): the union of the
dictionary shapes it assigns, absent keys as `none`. -/
structure VRecord where
  status : Status
  error : Option String := none
  job_id : Option String := none
  job_details : Option JobDetails := none
  ai_score : Option Nat := none
  reputation_tx_id : Option String := none
  event_found : Option Bool := none
  timestamp : Nat
deriving DecidableEq

/-- Outcomes of the external calls available to one `process_validation`
run; an `error` value models that call raising an exception. -/
structure ValidationEnv where
  receipt : Except String (List LogEntry)
  getJob : Except String JobDetails
  aiReply : Except String String
  writeTx : Except String String

/-- One run of the pipeline: the assignments made to
`jobs[validation_id]` after creation, and the external calls performed, in
order. -/
structure ValidationRun where
  writes : List VRecord
  steps : List PipelineStep
deriving DecidableEq

/-- Failure dictionary `{"status": "failed", "error": msg, "job_id": ...,
"timestamp": ...}` written by `process_validation`. -/
def validation_fail (job_id : String) (now : Nat) (msg : String) : VRecord :=
  { status := .failed, error := some msg, job_id := some job_id, timestamp := now }

/-- Error message of the step-1 failure. -/
def eventNotFoundMsg : String :=
  "CrossValidationRequested event not found in provided transaction"

/-- Error message of the step-2 lookup failure. -/
def jobNotFoundMsg (job_id : String) : String := "Job not found: " ++ job_id

/-- Error message of the step-2 validity gate. -/
def noValidDataMsg (jd : JobDetails) : String :=
  "Job exists but has no valid data (agentId=" ++ toString jd.agent_id ++
    ", creator=" ++ jd.creator ++ ")"

/-- Error message of the step-3/4 scoring failure. -/
def aiFailMsg : String := "Failed to get AI validation score"

/-- Steps 2-5 of `process_validation` (everything after the event check):
job fetch, validity gate, context construction + AI scoring, write-back. -/
def validation_from_step2 (env : ValidationEnv) (now : Nat) (job_id : String)
    (verifier_agent_id : Option Nat) (event_found : Bool) : ValidationRun :=
  match get_job_details env.getJob with
  | none =>
    { writes := [validation_fail job_id now (jobNotFoundMsg job_id)],
      steps := [PipelineStep.jobFetch] }
  | some jd =>
    if jd.agent_id == 0 || jd.creator == zeroAddress then
      { writes := [{ status := .failed, error := some (noValidDataMsg jd),
                     job_id := some job_id, job_details := some jd,
                     timestamp := now }],
        steps := [PipelineStep.jobFetch] }
    else
      let ai_context := build_ai_context jd
      match get_ai_validation_score ai_context jd.description env.aiReply with
      | none =>
        { writes := [{ status := .failed, error := some aiFailMsg,
                       job_id := some job_id, job_details := some jd,
                       timestamp := now }],
          steps := [PipelineStep.jobFetch, PipelineStep.aiScore] }
      | some score =>
        let verifier_id := verifier_agent_id.getD 0
        let rr := record_reputation_score env.writeTx jd.agent_id verifier_id (score : Int)
        { writes := [match rr.1 with
                     | .error e => validation_fail job_id now e
                     | .ok reputation_tx_id =>
                       { status := .completed, job_id := some job_id,
                         job_details := some jd, ai_score := some score,
                         reputation_tx_id := some reputation_tx_id,
                         event_found := some event_found, timestamp := now }],
          steps := [PipelineStep.jobFetch, PipelineStep.aiScore] ++ rr.2 }

/-- Embedding of `main.process_validation`: the background cross-validation pipeline.
`event_signature` is the service's stored keccak hash of
`CrossValidationRequested(bytes32,uint256)`. -/
def process_validation (env : ValidationEnv) (event_signature : String)
    (now : Nat) (job_id : String) (transaction_id : Option String)
    (verifier_agent_id : Option Nat) : ValidationRun :=
  match transaction_id with
  | some _ =>
    let event_found :=
      check_event_in_transaction event_signature env.receipt job_id verifier_agent_id
    if event_found then
      let rest := validation_from_step2 env now job_id verifier_agent_id true
      { writes := rest.writes, steps := PipelineStep.eventCheck :: rest.steps }
    else
      { writes := [validation_fail job_id now eventNotFoundMsg],
        steps := [PipelineStep.eventCheck] }
  | none => validation_from_step2 env now job_id verifier_agent_id false

/-- Constant `MIN_JOB_DATA_LENGTH` from `main.py`. -/
def MIN_JOB_DATA_LENGTH : Nat := 50

/-- Constant `MAX_JOB_DATA_LENGTH` from `main.py`. -/
def MAX_JOB_DATA_LENGTH : Nat := 400000

/-- One entry of the `jobs` store as written by the free-text verification
path (`verify_job` creation plus `ollama_provider.process_summary`). -/
structure SummaryRecord where
  status : Status
  result : Option String := none
  word_count : Option Nat := none
  reading_time : Option String := none
  error : Option String := none
  error_details : Option String := none
  timestamp : Nat
deriving DecidableEq

/-- Embedding of `main.verify_job` up to scheduling the background task: either an
`HTTPException (status_code, detail)` (no job record created) or the fresh
job identifier together with the created `processing` record. -/
def verify_job (job_data : String) (new_id : String) (now : Nat) :
    Except (Nat × String) (String × SummaryRecord) :=
  let data_length := job_data.length
  if data_length < MIN_JOB_DATA_LENGTH then
    .error (400, "Job data too short. Minimum length is " ++
      toString MIN_JOB_DATA_LENGTH ++ " characters.")
  else if data_length > MAX_JOB_DATA_LENGTH then
    .error (400, "Job data too long. Maximum length is " ++
      toString MAX_JOB_DATA_LENGTH ++ " characters (~100K tokens).")
  else
    .ok (new_id, { status := .processing, timestamp := now })

/-- Python `str.split()` with no separator: split on runs of whitespace,
dropping empty pieces; `acc` holds the reversed characters of the word
currently being read. -/
def pySplitAux : List Char → List Char → List String
  | [], acc => if acc.isEmpty then [] else [String.mk acc.reverse]
  | c :: cs, acc =>
    if pyIsSpace c then
      if acc.isEmpty then pySplitAux cs []
      else String.mk acc.reverse :: pySplitAux cs []
    else pySplitAux cs (c :: acc)

/-- Python `job_data.split()`. -/
def pySplit (s : String) : List String := pySplitAux s.toList []

/-- The formatted `reading_time` value:
`f"{rt} minute{'s' if rt != 1 else ''}"`. -/
def readingTimeString (rt : Nat) : String :=
  toString rt ++ " minute" ++ (if rt ≠ 1 then "s" else "")

/-- Embedding of `ollama_provider.process_summary`: the verification background task.
Returns the list of assignments made to `jobs[job_id]`.  The chat call is
modelled by `chatResult`; on an exception the `except` block writes a failed
record whose `error_details` also carries the interpreter traceback text,
modelled here by the message alone. -/
def process_summary (chatResult : Except String String) (job_data : String)
    (now : Nat) : List SummaryRecord :=
  match chatResult with
  | .ok verification_result =>
    let word_count := (pySplit job_data).length
    let reading_time := max 1 (word_count / 200)
    [{ status := .completed, result := some verification_result,
       word_count := some word_count,
       reading_time := some (readingTimeString reading_time),
       timestamp := now }]
  | .error e =>
    [{ status := .failed, error := some e, error_details := some e,
       timestamp := now }]

/-- Refinement comparison only — NOT translated from the source.  Modelled
from the spec's words for the event-confirmation step: the input job
reference "after left-padding it to 64 hex characters". -/
def spec_left_pad_64 (job_id : String) : String :=
  let body := if startsWith0x job_id then String.mk (job_id.toList.drop 2) else job_id
  "0x" ++ String.mk (List.replicate (64 - body.length) '0') ++ body

/-- Concrete job fixture with non-zero agent id and non-zero creator, used by
closed witnesses. -/
def sampleJob : JobDetails :=
  { creator := "0x1111111111111111111111111111111111111111", agent_id := 5,
    budget := 1000, description := "desc", state := 1, created_at := 10,
    accept_deadline := 20, complete_deadline := 30, multihop_id := "ab", step := 1 }

/-- Concrete job fixture with zero agent id but a non-zero creator. -/
def zeroAgentJob : JobDetails :=
  { creator := "0x1111111111111111111111111111111111111111", agent_id := 0,
    budget := 7, description := "d", state := 1, created_at := 1,
    accept_deadline := 2, complete_deadline := 3, multihop_id := "ab", step := 1 }

/-- Concrete job fixture with a non-zero agent id but the zero creator. -/
def zeroCreatorJob : JobDetails :=
  { creator := "0x0000000000000000000000000000000000000000", agent_id := 5,
    budget := 7, description := "d", state := 1, created_at := 1,
    accept_deadline := 2, complete_deadline := 3, multihop_id := "ab", step := 1 }

/-! ## Helper lemmas -/

theorem get_ai_validation_score_le (ctx desc : String) (r : Except String String)
    (n : Nat) (h : get_ai_validation_score ctx desc r = some n) : n ≤ 100 := by
  cases r with
  | error e => simp [get_ai_validation_score] at h
  | ok content =>
    simp only [get_ai_validation_score] at h
    cases hf : firstDigitRun (pyStrip content.toList) with
    | none => rw [hf] at h; simp at h
    | some d =>
      rw [hf] at h
      simp only [Option.some.injEq] at h
      omega

theorem record_reputation_clamped (wtx : Except String String) (a v : Nat)
    (n : Nat) (h : n ≤ 100) :
    record_reputation_score wtx a v (n : Int) = (wtx, [PipelineStep.writeBack]) := by
  have hc : (0 : Int) ≤ (n : Int) ∧ (n : Int) ≤ 100 := by omega
  unfold record_reputation_score
  rw [if_neg (not_not_intro hc)]

/-- Exhaustive characterization of steps 2-5 of the pipeline: exactly one of
the five branches (lookup failure, validity gate, scoring failure, write-back
failure, success) is taken. -/
theorem validation_from_step2_spec (env : ValidationEnv) (now : Nat) (job_id : String)
    (vid : Option Nat) (ef : Bool) :
    (get_job_details env.getJob = none ∧
      validation_from_step2 env now job_id vid ef =
        { writes := [validation_fail job_id now (jobNotFoundMsg job_id)],
          steps := [PipelineStep.jobFetch] }) ∨
    (∃ jd, get_job_details env.getJob = some jd ∧
      (jd.agent_id == 0 || jd.creator == zeroAddress) = true ∧
      validation_from_step2 env now job_id vid ef =
        { writes := [{ status := .failed, error := some (noValidDataMsg jd),
                       job_id := some job_id, job_details := some jd, timestamp := now }],
          steps := [PipelineStep.jobFetch] }) ∨
    (∃ jd, get_job_details env.getJob = some jd ∧
      (jd.agent_id == 0 || jd.creator == zeroAddress) = false ∧
      get_ai_validation_score (build_ai_context jd) jd.description env.aiReply = none ∧
      validation_from_step2 env now job_id vid ef =
        { writes := [{ status := .failed, error := some aiFailMsg,
                       job_id := some job_id, job_details := some jd, timestamp := now }],
          steps := [PipelineStep.jobFetch, PipelineStep.aiScore] }) ∨
    (∃ jd score e, get_job_details env.getJob = some jd ∧
      (jd.agent_id == 0 || jd.creator == zeroAddress) = false ∧
      get_ai_validation_score (build_ai_context jd) jd.description env.aiReply = some score ∧
      env.writeTx = .error e ∧
      validation_from_step2 env now job_id vid ef =
        { writes := [validation_fail job_id now e],
          steps := [PipelineStep.jobFetch, PipelineStep.aiScore, PipelineStep.writeBack] }) ∨
    (∃ jd score tx, get_job_details env.getJob = some jd ∧
      (jd.agent_id == 0 || jd.creator == zeroAddress) = false ∧
      get_ai_validation_score (build_ai_context jd) jd.description env.aiReply = some score ∧
      env.writeTx = .ok tx ∧
      validation_from_step2 env now job_id vid ef =
        { writes := [{ status := .completed, job_id := some job_id, job_details := some jd,
                       ai_score := some score, reputation_tx_id := some tx,
                       event_found := some ef, timestamp := now }],
          steps := [PipelineStep.jobFetch, PipelineStep.aiScore, PipelineStep.writeBack] }) := by
  cases hg : get_job_details env.getJob with
  | none =>
    left
    exact ⟨rfl, by unfold validation_from_step2; rw [hg]⟩
  | some jd =>
    cases hz : (jd.agent_id == 0 || jd.creator == zeroAddress) with
    | true =>
      right; left
      refine ⟨jd, rfl, hz, ?_⟩
      unfold validation_from_step2
      rw [hg]
      simp only [hz, if_true]
    | false =>
      cases ha : get_ai_validation_score (build_ai_context jd) jd.description env.aiReply with
      | none =>
        right; right; left
        refine ⟨jd, rfl, hz, ha, ?_⟩
        unfold validation_from_step2
        rw [hg]
        simp only [hz, Bool.false_eq_true, if_false, ha]
      | some score =>
        have hle := get_ai_validation_score_le _ _ _ _ ha
        have hrr := record_reputation_clamped env.writeTx jd.agent_id (vid.getD 0) score hle
        cases hw : env.writeTx with
        | error e =>
          right; right; right; left
          refine ⟨jd, score, e, rfl, hz, ha, ?_, ?_⟩
          · first
            | rfl
            | exact hw
          · rw [hw] at hrr
            unfold validation_from_step2
            rw [hg]
            simp only [hz, Bool.false_eq_true, if_false, ha, hw, hrr]
            rfl
        | ok tx =>
          right; right; right; right
          refine ⟨jd, score, tx, rfl, hz, ha, ?_, ?_⟩
          · first
            | rfl
            | exact hw
          · rw [hw] at hrr
            unfold validation_from_step2
            rw [hg]
            simp only [hz, Bool.false_eq_true, if_false, ha, hw, hrr]
            rfl

theorem validation_from_step2_writes_single (env : ValidationEnv) (now : Nat)
    (job_id : String) (vid : Option Nat) (ef : Bool) :
    ∃ r, (validation_from_step2 env now job_id vid ef).writes = [r] ∧
      (r.status = .completed ∨ r.status = .failed) := by
  rcases validation_from_step2_spec env now job_id vid ef with
    ⟨_, h⟩ | ⟨jd, _, _, h⟩ | ⟨jd, _, _, _, h⟩ | ⟨jd, sc, e, _, _, _, _, h⟩ |
    ⟨jd, sc, tx, _, _, _, _, h⟩ <;>
  rw [h] <;> exact ⟨_, rfl, by simp [validation_fail]⟩

theorem validation_from_step2_no_eventCheck (env : ValidationEnv) (now : Nat)
    (job_id : String) (vid : Option Nat) (ef : Bool) :
    PipelineStep.eventCheck ∉ (validation_from_step2 env now job_id vid ef).steps := by
  rcases validation_from_step2_spec env now job_id vid ef with
    ⟨_, h⟩ | ⟨jd, _, _, h⟩ | ⟨jd, _, _, _, h⟩ | ⟨jd, sc, e, _, _, _, _, h⟩ |
    ⟨jd, sc, tx, _, _, _, _, h⟩ <;>
  rw [h] <;> simp

theorem validation_from_step2_head (env : ValidationEnv) (now : Nat)
    (job_id : String) (vid : Option Nat) (ef : Bool) :
    (validation_from_step2 env now job_id vid ef).steps.head? =
      some PipelineStep.jobFetch := by
  rcases validation_from_step2_spec env now job_id vid ef with
    ⟨_, h⟩ | ⟨jd, _, _, h⟩ | ⟨jd, _, _, _, h⟩ | ⟨jd, sc, e, _, _, _, _, h⟩ |
    ⟨jd, sc, tx, _, _, _, _, h⟩ <;>
  rw [h] <;> rfl

theorem validation_from_step2_completed_flag (env : ValidationEnv) (now : Nat)
    (job_id : String) (vid : Option Nat) (ef : Bool) :
    ∀ r ∈ (validation_from_step2 env now job_id vid ef).writes,
      r.status = .completed → r.event_found = some ef := by
  rcases validation_from_step2_spec env now job_id vid ef with
    ⟨_, h⟩ | ⟨jd, _, _, h⟩ | ⟨jd, _, _, _, h⟩ | ⟨jd, sc, e, _, _, _, _, h⟩ |
    ⟨jd, sc, tx, _, _, _, _, h⟩ <;>
  rw [h] <;> simp [validation_fail]

theorem validation_from_step2_take (env : ValidationEnv) (now : Nat)
    (job_id : String) (vid : Option Nat) (ef : Bool) :
    ∃ k, (validation_from_step2 env now job_id vid ef).steps =
      [PipelineStep.jobFetch, PipelineStep.aiScore, PipelineStep.writeBack].take k := by
  rcases validation_from_step2_spec env now job_id vid ef with
    ⟨_, h⟩ | ⟨jd, _, _, h⟩ | ⟨jd, _, _, _, h⟩ | ⟨jd, sc, e, _, _, _, _, h⟩ |
    ⟨jd, sc, tx, _, _, _, _, h⟩ <;>
  rw [h]
  · exact ⟨1, rfl⟩
  · exact ⟨1, rfl⟩
  · exact ⟨2, rfl⟩
  · exact ⟨3, rfl⟩
  · exact ⟨3, rfl⟩

/-! ## Claims -/

/-- C4: every execution of a background pipeline (cross-validation
`process_validation`, or verification `process_summary`) performs exactly one
write to the record it was created for, and that write is terminal
(Completed or Failed); the run makes no further write after it. -/
theorem C4_single_terminal_write (env : ValidationEnv) (sig : String) (now : Nat)
    (job_id : String) (tid : Option String) (vid : Option Nat)
    (chat : Except String String) (job_data : String) (now2 : Nat) :
    (∃ r, (process_validation env sig now job_id tid vid).writes = [r] ∧
       (r.status = .completed ∨ r.status = .failed)) ∧
    (∃ r, process_summary chat job_data now2 = [r] ∧
       (r.status = .completed ∨ r.status = .failed)) := by
  constructor
  · cases tid with
    | none => exact validation_from_step2_writes_single env now job_id vid false
    | some tx =>
      unfold process_validation
      by_cases hev :
          check_event_in_transaction sig env.receipt job_id vid = true
      · simp only [hev, if_true]
        obtain ⟨r, hr, hrs⟩ := validation_from_step2_writes_single env now job_id vid true
        exact ⟨r, hr, hrs⟩
      · simp only [Bool.not_eq_true] at hev
        simp only [hev, Bool.false_eq_true, if_false]
        exact ⟨_, rfl, Or.inr rfl⟩
  · cases chat <;> exact ⟨_, rfl, by simp [process_summary]⟩

/-- C7: with no transaction reference, the event-confirmation step is
skipped (no receipt fetch is performed, the run starts at the job-data
retrieval), and a successful run's Completed record carries
`event_found = false`. -/
theorem C7_no_tx_skips_event (env : ValidationEnv) (sig : String) (now : Nat)
    (job_id : String) (vid : Option Nat) :
    PipelineStep.eventCheck ∉ (process_validation env sig now job_id none vid).steps ∧
    (process_validation env sig now job_id none vid).steps.head? =
      some PipelineStep.jobFetch ∧
    (∀ r ∈ (process_validation env sig now job_id none vid).writes,
       r.status = .completed → r.event_found = some false) := by
  refine ⟨?_, ?_, ?_⟩
  · exact validation_from_step2_no_eventCheck env now job_id vid false
  · exact validation_from_step2_head env now job_id vid false
  · exact validation_from_step2_completed_flag env now job_id vid false

/-- C6: a free-text verification submission is accepted (a Processing record
is created under the fresh identifier) exactly when the text length lies in
[50, 400000]; lengths below 50 or above 400000 are rejected synchronously
with a 400 client error and no record. -/
theorem C6_length_gate (t id : String) (now : Nat) :
    (50 ≤ t.length ∧ t.length ≤ 400000 →
      verify_job t id now = .ok (id, { status := .processing, timestamp := now })) ∧
    (t.length < 50 → verify_job t id now =
      .error (400, "Job data too short. Minimum length is 50 characters.")) ∧
    (400000 < t.length → verify_job t id now =
      .error (400,
        "Job data too long. Maximum length is 400000 characters (~100K tokens).")) := by
  refine ⟨fun h => ?_, fun h => ?_, fun h => ?_⟩
  · unfold verify_job MIN_JOB_DATA_LENGTH MAX_JOB_DATA_LENGTH
    rw [if_neg (by omega), if_neg (by omega)]
  · unfold verify_job MIN_JOB_DATA_LENGTH
    rw [if_pos (by omega)]
    rfl
  · unfold verify_job MIN_JOB_DATA_LENGTH MAX_JOB_DATA_LENGTH
    rw [if_neg (by omega), if_pos (by omega)]
    rfl

/-- C6 witness: a 50-character text is accepted with a Processing record, a
49-character text is rejected with a 400 error. -/
theorem C6_length_gate_witness :
    verify_job (String.mk (List.replicate 50 'a')) ("id1") 7 =
      .ok (("id1"), { status := .processing, timestamp := 7 }) ∧
    verify_job (String.mk (List.replicate 49 'a')) ("id1") 7 =
      .error (400, "Job data too short. Minimum length is 50 characters.") :=
  ⟨(C6_length_gate _ _ _).1 (by constructor <;> decide),
   (C6_length_gate _ _ _).2.1 (by decide)⟩

/-- C8: a successful verification run writes a Completed record whose word
count is the number of whitespace-separated tokens of the input and whose
reading time is `max 1 (wordCount / 200)` whole minutes; any input with
fewer than 400 words gets reading time 1. -/
theorem C8_word_stats (reply t : String) (now : Nat) :
    process_summary (.ok reply) t now =
      [{ status := .completed, result := some reply,
         word_count := some (pySplit t).length,
         reading_time := some (readingTimeString (max 1 ((pySplit t).length / 200))),
         timestamp := now }] ∧
    ((pySplit t).length < 400 →
      ∀ r ∈ process_summary (.ok reply) t now, r.reading_time = some ("1 minute")) := by
  constructor
  · rfl
  · intro h r hr
    have h2 : max 1 ((pySplit t).length / 200) = 1 := by omega
    simp only [process_summary, List.mem_singleton] at hr
    subst hr
    simp only [h2]
    decide

/-- C8 witness: a 50-character one-word input with reply "YES" yields the
Completed record with word count 1 and reading time "1 minute". -/
theorem C8_word_stats_witness :
    ({ status := .completed, result := some ("YES"), word_count := some 1,
       reading_time := some ("1 minute"), timestamp := 9 } : SummaryRecord).reading_time
      = some ("1 minute") :=
  (C8_word_stats ("YES") (String.mk (List.replicate 50 'a')) 9).2 (by decide) _ (by decide)

/-- C7 witness: with no transaction reference, a fully successful concrete
run produces the Completed record with `event_found = false`. -/
theorem C7_no_tx_skips_event_witness :
    ({ status := .completed, job_id := some ("0xjob"), job_details := some sampleJob,
       ai_score := some 85, reputation_tx_id := some ("0xtx"),
       event_found := some false, timestamp := 3 } : VRecord).event_found =
      some false :=
  (C7_no_tx_skips_event
      { receipt := .ok [], getJob := .ok sampleJob,
        aiReply := .ok ("85"), writeTx := .ok ("0xtx") }
      ("0xsig") 3 ("0xjob") none).2.2 _ (by decide) (by decide)

theorem mem_pyStrip (c : Char) (l : List Char) (h : c ∈ pyStrip l) : c ∈ l := by
  unfold pyStrip at h
  rw [List.mem_reverse] at h
  have h2 := (List.dropWhile_suffix pyIsSpace).sublist.mem h
  rw [List.mem_reverse] at h2
  exact (List.dropWhile_suffix pyIsSpace).sublist.mem h2

theorem digitRunsAux_nil (l : List Char) (h : ∀ c ∈ l, c.isDigit = false) :
    digitRunsAux l [] = [] := by
  induction l with
  | nil => rfl
  | cons c cs ih =>
    unfold digitRunsAux
    rw [h c (List.mem_cons_self c cs)]
    simp only [Bool.false_eq_true, if_false, List.isEmpty_nil, if_true]
    exact ih (fun x hx => h x (List.mem_cons_of_mem _ hx))

/-- C3: the AI-scoring step takes the first maximal decimal-digit run of the
reply and clamps it to [0, 100]: "150" gives 100, "-5" gives 5, a digit-free
reply (or a failed chat call) gives no score, and a scoreless run writes the
terminal Failed record carrying the already-retrieved job details and the
message "Failed to get AI validation score". -/
theorem C3_score_parsing :
    (∀ ctx desc : String, get_ai_validation_score ctx desc (.ok ("150")) = some 100) ∧
    (∀ ctx desc : String, get_ai_validation_score ctx desc (.ok ("-5")) = some 5) ∧
    (∀ ctx desc reply : String, (∀ c ∈ reply.toList, c.isDigit = false) →
       get_ai_validation_score ctx desc (.ok reply) = none) ∧
    (∀ ctx desc e : String, get_ai_validation_score ctx desc (.error e) = none) ∧
    (∀ (env : ValidationEnv) (sig : String) (now : Nat) (job_id : String)
       (vid : Option Nat) (jd : JobDetails),
       env.getJob = .ok jd →
       (jd.agent_id == 0 || jd.creator == zeroAddress) = false →
       get_ai_validation_score (build_ai_context jd) jd.description env.aiReply = none →
       (process_validation env sig now job_id none vid).writes =
         [{ status := .failed, error := some aiFailMsg, job_id := some job_id,
            job_details := some jd, timestamp := now }]) := by
  refine ⟨fun ctx desc => rfl, fun ctx desc => rfl, ?_, fun ctx desc e => rfl, ?_⟩
  · intro ctx desc reply h
    have hs : ∀ c ∈ pyStrip reply.toList, c.isDigit = false :=
      fun c hc => h c (mem_pyStrip c _ hc)
    simp only [get_ai_validation_score]
    have : firstDigitRun (pyStrip reply.toList) = none := by
      unfold firstDigitRun
      rw [digitRunsAux_nil _ hs]
      rfl
    rw [this]
  · intro env sig now job_id vid jd hgj hz ha
    rcases validation_from_step2_spec env now job_id vid false with
      ⟨hn, h⟩ | ⟨jd', hs, hz', h⟩ | ⟨jd', hs, hz', ha', h⟩ |
      ⟨jd', sc, e, hs, hz', ha', hw, h⟩ | ⟨jd', sc, tx, hs, hz', ha', hw, h⟩
    · rw [hgj] at hn
      exact absurd hn (by simp [get_job_details])
    · rw [hgj] at hs
      simp only [get_job_details, Option.some.injEq] at hs
      subst hs
      rw [hz] at hz'
      cases hz'
    · rw [hgj] at hs
      simp only [get_job_details, Option.some.injEq] at hs
      subst hs
      show (process_validation env sig now job_id none vid).writes = _
      show (validation_from_step2 env now job_id vid false).writes = _
      rw [h]
    · rw [hgj] at hs
      simp only [get_job_details, Option.some.injEq] at hs
      subst hs
      rw [ha] at ha'
      cases ha'
    · rw [hgj] at hs
      simp only [get_job_details, Option.some.injEq] at hs
      subst hs
      rw [ha] at ha'
      cases ha'

/-- C3 witness: a digit-free reply yields no score, and a concrete
scoreless run writes the Failed record with the job details attached. -/
theorem C3_score_parsing_witness :
    get_ai_validation_score ("c") ("d") (.ok ("UNKNOWN")) = none ∧
    (process_validation
        { receipt := .ok [], getJob := .ok sampleJob,
          aiReply := .error ("boom"), writeTx := .ok ("0xtx") }
        ("0xsig") 4 ("0xj") none none).writes =
      [{ status := .failed, error := some aiFailMsg, job_id := some ("0xj"),
         job_details := some sampleJob, timestamp := 4 }] :=
  ⟨C3_score_parsing.2.2.1 ("c") ("d") ("UNKNOWN") (by decide),
   C3_score_parsing.2.2.2.2 _ ("0xsig") 4 ("0xj") none sampleJob rfl (by decide) rfl⟩

/-- C9: the write-back operation rejects every score outside [0, 100] with a
raised error and no transaction submission; a score produced by the clamping
parser always passes the guard, so the error branch is unreachable in a
pipeline run. -/
theorem C9_score_guard (wtx : Except String String) (a v : Nat) :
    (∀ score : Int, ¬ (0 ≤ score ∧ score ≤ 100) →
       record_reputation_score wtx a v score =
         (.error ("Score must be between 0 and 100, got " ++ toString score), [])) ∧
    (∀ (ctx desc : String) (r : Except String String) (n : Nat),
       get_ai_validation_score ctx desc r = some n →
       record_reputation_score wtx a v (n : Int) = (wtx, [PipelineStep.writeBack])) := by
  constructor
  · intro score h
    unfold record_reputation_score
    rw [if_pos h]
  · intro ctx desc r n hn
    exact record_reputation_clamped wtx a v n (get_ai_validation_score_le ctx desc r n hn)

/-- C9 witness: score 150 is rejected without submission; the parser output
for reply "150" (namely 100) passes the guard and submits. -/
theorem C9_score_guard_witness :
    record_reputation_score (.ok ("t")) 1 2 150 =
      (.error ("Score must be between 0 and 100, got " ++ toString (150 : Int)), []) ∧
    record_reputation_score (.ok ("t")) 1 2 ((100 : Nat) : Int) =
      (.ok ("t"), [PipelineStep.writeBack]) :=
  ⟨(C9_score_guard _ 1 2).1 150 (by omega),
   (C9_score_guard _ 1 2).2 ("c") ("d") (.ok ("150")) 100 (by decide)⟩

/-- C10: the event-confirmation check never propagates an exception — a
failed receipt fetch and a decoding failure both return `false` — and the
pipeline then writes the same terminal Failed record ("CrossValidationRequested
event not found in provided transaction") as for a transaction that genuinely
lacks a matching event. -/
theorem C10_event_check_contained (sig job_id : String) (vid : Option Nat)
    (e : String) (g : Except String JobDetails) (a w : Except String String)
    (now : Nat) (tx : String) :
    check_event_in_transaction sig (.error e) job_id vid = false ∧
    (∀ logs : List LogEntry,
       scanLogs (ljust (ensure0x job_id) 66 '0') vid
           (logs.filter (fun log => log.topics.head? == some sig)) = none →
       check_event_in_transaction sig (.ok logs) job_id vid = false) ∧
    (process_validation { receipt := .error e, getJob := g, aiReply := a, writeTx := w }
        sig now job_id (some tx) vid).writes =
      [validation_fail job_id now eventNotFoundMsg] ∧
    (process_validation { receipt := .ok [], getJob := g, aiReply := a, writeTx := w }
        sig now job_id (some tx) vid).writes =
      [validation_fail job_id now eventNotFoundMsg] := by
  refine ⟨rfl, ?_, rfl, rfl⟩
  intro logs h
  unfold check_event_in_transaction get_logs_from_transaction
  simp only [h]

/-- C10 witness: a log whose second topic is not parseable hex raises during
decoding; the check still returns `false`. -/
theorem C10_event_check_contained_witness :
    check_event_in_transaction ("0xaaaa")
      (.ok [{ topics := ["0xaaaa", "zz"],
              data := "0xab" ++ String.mk (List.replicate 62 '0') }])
      ("0xab") (some 5) = false :=
  (C10_event_check_contained ("0xaaaa") ("0xab") (some 5) ("e") (.error ("g"))
      (.error ("a")) (.error ("w")) 0 ("0xt")).2.1
    [{ topics := ["0xaaaa", "zz"], data := "0xab" ++ String.mk (List.replicate 62 '0') }]
    (by decide)

theorem noValidDataMsg_ne_aiFailMsg (jd : JobDetails) :
    noValidDataMsg jd ≠ aiFailMsg := by
  intro h
  have hl := congrArg String.length h
  unfold noValidDataMsg aiFailMsg at hl
  rw [String.length_append, String.length_append, String.length_append,
    String.length_append] at hl
  have h1 : ("Job exists but has no valid data (agentId=" : String).length = 42 := rfl
  have h2 : (", creator=" : String).length = 10 := rfl
  have h3 : (")" : String).length = 1 := rfl
  have h4 : ("Failed to get AI validation score" : String).length = 33 := rfl
  omega

/-- Full case analysis of `process_validation`: either the event check fails
(and only the receipt fetch ran), or the run continues into steps 2-5,
optionally after a successful event check. -/
theorem process_validation_total_cases (env : ValidationEnv) (sig : String)
    (now : Nat) (job_id : String) (tid : Option String) (vid : Option Nat) :
    (∃ tx, tid = some tx ∧
       check_event_in_transaction sig env.receipt job_id vid = false ∧
       process_validation env sig now job_id tid vid =
         { writes := [validation_fail job_id now eventNotFoundMsg],
           steps := [PipelineStep.eventCheck] }) ∨
    (∃ ef pre, ((tid = none ∧ pre = [] ∧ ef = false) ∨
        ((∃ tx, tid = some tx) ∧ pre = [PipelineStep.eventCheck] ∧ ef = true ∧
          check_event_in_transaction sig env.receipt job_id vid = true)) ∧
       process_validation env sig now job_id tid vid =
         { writes := (validation_from_step2 env now job_id vid ef).writes,
           steps := pre ++ (validation_from_step2 env now job_id vid ef).steps }) := by
  cases tid with
  | none => exact Or.inr ⟨false, [], Or.inl ⟨rfl, rfl, rfl⟩, rfl⟩
  | some tx =>
    by_cases h : check_event_in_transaction sig env.receipt job_id vid = true
    · refine Or.inr ⟨true, [PipelineStep.eventCheck], Or.inr ⟨⟨tx, rfl⟩, rfl, rfl, h⟩, ?_⟩
      unfold process_validation
      simp only [h, if_true]
      rfl
    · rw [Bool.not_eq_true] at h
      refine Or.inl ⟨tx, rfl, h, ?_⟩
      unfold process_validation
      simp only [h, Bool.false_eq_true, if_false]

/-- C1 counterexample: a retrieved job with zero agent id but a NON-zero
creator (so not "both zero") is nevertheless rejected by the pipeline with
the "no valid data" error, and AI scoring is never reached — the code gates
on `agent_id == 0 OR creator == zero`, not on the conjunction. -/
theorem C1_counterexample :
    zeroAgentJob.creator ≠ zeroAddress ∧ zeroAgentJob.agent_id = 0 ∧
    (process_validation
        { receipt := .ok [], getJob := .ok zeroAgentJob,
          aiReply := .ok ("80"), writeTx := .ok ("0xtx") }
        ("0xsig") 0 ("0xjob") none none).writes =
      [{ status := .failed, error := some (noValidDataMsg zeroAgentJob),
         job_id := some ("0xjob"), job_details := some zeroAgentJob, timestamp := 0 }] ∧
    PipelineStep.aiScore ∉
      (process_validation
        { receipt := .ok [], getJob := .ok zeroAgentJob,
          aiReply := .ok ("80"), writeTx := .ok ("0xtx") }
        ("0xsig") 0 ("0xjob") none none).steps := by
  decide

/-- C1 amended: for every job record whose retrieval succeeds (and whose
event step, if any, passed), the pipeline fails with the "no valid data"
error if and only if the owning-agent identifier is zero OR the creator is
the zero address; when BOTH are non-zero the pipeline proceeds to context
construction and AI scoring. -/
theorem C1_zero_data_gate (env : ValidationEnv) (sig : String) (now : Nat)
    (job_id : String) (tid : Option String) (vid : Option Nat) (jd : JobDetails)
    (hgj : env.getJob = .ok jd)
    (hreach : tid = none ∨ check_event_in_transaction sig env.receipt job_id vid = true) :
    ((process_validation env sig now job_id tid vid).writes =
        [{ status := .failed, error := some (noValidDataMsg jd), job_id := some job_id,
           job_details := some jd, timestamp := now }] ↔
      (jd.agent_id = 0 ∨ jd.creator = zeroAddress)) ∧
    (jd.agent_id ≠ 0 → jd.creator ≠ zeroAddress →
      PipelineStep.aiScore ∈ (process_validation env sig now job_id tid vid).steps) := by
  rcases process_validation_total_cases env sig now job_id tid vid with
    ⟨tx, htx, hev, hrun⟩ | ⟨ef, pre, hpre, hrun⟩
  · rcases hreach with h | h
    · rw [htx] at h
      cases h
    · rw [h] at hev
      cases hev
  · rw [hrun]
    have hpre' : pre = [] ∨ pre = [PipelineStep.eventCheck] := by
      rcases hpre with ⟨_, hp, _⟩ | ⟨_, hp, _, _⟩
      · exact Or.inl hp
      · exact Or.inr hp
    clear hpre hreach
    rcases validation_from_step2_spec env now job_id vid ef with
      ⟨hn, h⟩ | ⟨jd', hs, hz, h⟩ | ⟨jd', hs, hz, ha, h⟩ |
      ⟨jd', sc, e, hs, hz, ha, hw, h⟩ | ⟨jd', sc, tx', hs, hz, ha, hw, h⟩
    · rw [hgj] at hn
      exact absurd hn (by simp [get_job_details])
    all_goals rw [hgj] at hs
    all_goals simp only [get_job_details, Option.some.injEq] at hs
    all_goals subst hs
    all_goals rw [h]
    · simp only [Bool.or_eq_true, beq_iff_eq] at hz
      constructor
      · exact ⟨fun _ => hz, fun _ => rfl⟩
      · intro h0 hc
        rcases hz with hz | hz
        · exact absurd hz h0
        · exact absurd hz hc
    all_goals
      simp only [Bool.or_eq_false_iff, beq_eq_false_iff_ne] at hz
    · constructor
      · refine ⟨fun hl => ?_, fun hr => ?_⟩
        · simp only [List.cons.injEq, and_true, VRecord.mk.injEq, Option.some.injEq] at hl
          exact absurd hl.2.symm (noValidDataMsg_ne_aiFailMsg jd)
        · rcases hr with hr | hr
          · exact absurd hr hz.1
          · exact absurd hr hz.2
      · intro h0 hc
        simp
    · constructor
      · refine ⟨fun hl => ?_, fun hr => ?_⟩
        · simp only [validation_fail, List.cons.injEq, and_true, VRecord.mk.injEq,
            Option.some.injEq, reduceCtorEq, and_false, false_and] at hl
        · rcases hr with hr | hr
          · exact absurd hr hz.1
          · exact absurd hr hz.2
      · intro h0 hc
        simp
    · constructor
      · refine ⟨fun hl => ?_, fun hr => ?_⟩
        · simp only [List.cons.injEq, and_true, VRecord.mk.injEq, reduceCtorEq,
            false_and] at hl
        · rcases hr with hr | hr
          · exact absurd hr hz.1
          · exact absurd hr hz.2
      · intro h0 hc
        simp

/-- C1 witness: a job with zero creator but non-zero agent id is rejected
with the "no valid data" record. -/
theorem C1_zero_data_gate_witness :
    (process_validation
        { receipt := .ok [], getJob := .ok zeroCreatorJob,
          aiReply := .ok ("80"), writeTx := .ok ("0xtx") }
        ("0xsig") 2 ("0xjob") none none).writes =
      [{ status := .failed, error := some (noValidDataMsg zeroCreatorJob),
         job_id := some ("0xjob"), job_details := some zeroCreatorJob, timestamp := 2 }] :=
  (C1_zero_data_gate _ ("0xsig") 2 ("0xjob") none none zeroCreatorJob rfl
    (Or.inl rfl)).1.mpr (Or.inr rfl)


theorem scanLogs_true_imp (pad : String) (v : Option Nat) (ls : List LogEntry)
    (h : scanLogs pad v ls = some true) :
    ∃ log ∈ ls, pyLower (ensure0x log.data) = pyLower pad := by
  induction ls with
  | nil => simp [scanLogs] at h
  | cons log rest ih =>
    by_cases hd : (pyLower (ensure0x log.data) == pyLower pad) = true
    · exact ⟨log, List.mem_cons_self log rest, eq_of_beq hd⟩
    · unfold scanLogs at h
      rw [if_neg hd] at h
      obtain ⟨l, hm, he⟩ := ih h
      exact ⟨l, List.mem_cons_of_mem _ hm, he⟩

theorem scanLogs_none_ne (pad : String) (ls : List LogEntry) :
    scanLogs pad none ls ≠ none := by
  induction ls with
  | nil => simp [scanLogs]
  | cons log rest ih =>
    unfold scanLogs
    by_cases hd : (pyLower (ensure0x log.data) == pyLower pad) = true
    · rw [if_pos hd]
      simp
    · rw [if_neg hd]
      exact ih

theorem scanLogs_none_verifier_iff (pad : String) (ls : List LogEntry) :
    scanLogs pad none ls = some true ↔
      ∃ log ∈ ls, pyLower (ensure0x log.data) = pyLower pad := by
  induction ls with
  | nil => simp [scanLogs]
  | cons log rest ih =>
    unfold scanLogs
    by_cases hd : (pyLower (ensure0x log.data) == pyLower pad) = true
    · rw [if_pos hd]
      constructor
      · intro _
        exact ⟨log, List.mem_cons_self log rest, eq_of_beq hd⟩
      · intro _
        rfl
    · rw [if_neg hd, ih]
      constructor
      · rintro ⟨l, hm, he⟩
        exact ⟨l, List.mem_cons_of_mem _ hm, he⟩
      · rintro ⟨l, hm, he⟩
        rcases List.mem_cons.mp hm with rfl | hm2
        · exact absurd (beq_iff_eq.mpr he) hd
        · exact ⟨l, hm2, he⟩

theorem check_event_ok_none_iff (sig job_id : String) (logs : List LogEntry) :
    check_event_in_transaction sig (.ok logs) job_id none = true ↔
      ∃ log ∈ logs, log.topics.head? = some sig ∧
        pyLower (ensure0x log.data) = pyLower (ljust (ensure0x job_id) 66 '0') := by
  have key : scanLogs (ljust (ensure0x job_id) 66 '0') none
        (logs.filter (fun log => log.topics.head? == some sig)) = some true ↔
      ∃ log ∈ logs, log.topics.head? = some sig ∧
        pyLower (ensure0x log.data) = pyLower (ljust (ensure0x job_id) 66 '0') := by
    rw [scanLogs_none_verifier_iff]
    constructor
    · rintro ⟨l, hm, he⟩
      rw [List.mem_filter] at hm
      exact ⟨l, hm.1, eq_of_beq hm.2, he⟩
    · rintro ⟨l, hm, hhead, he⟩
      exact ⟨l, List.mem_filter.mpr ⟨hm, beq_iff_eq.mpr hhead⟩, he⟩
  simp only [check_event_in_transaction, get_logs_from_transaction]
  rcases hs : scanLogs (ljust (ensure0x job_id) 66 '0') none
      (logs.filter (fun log => log.topics.head? == some sig)) with _ | b
  · exact absurd hs (scanLogs_none_ne _ _)
  · rw [hs] at key
    cases b with
    | true => simpa using key
    | false => simpa using key


/-- C2 counterexample: the code pads the job reference on the RIGHT
(`ljust`), not the left.  For job reference "0xab", a transaction whose only
matching-signature log has data `0xab00...0` makes the event check succeed,
yet no log's data equals the LEFT-padded job reference the claim describes. -/
theorem C2_counterexample :
    check_event_in_transaction ("0xaaaa")
      (.ok [{ topics := ["0xaaaa"],
              data := "0xab" ++ String.mk (List.replicate 62 '0') }])
      ("0xab") none = true ∧
    (∀ log ∈ [({ topics := ["0xaaaa"],
                 data := "0xab" ++ String.mk (List.replicate 62 '0') } : LogEntry)],
       pyLower (ensure0x log.data) ≠ pyLower (spec_left_pad_64 ("0xab"))) := by
  decide

/-- C2 amended: with a transaction reference supplied, the logs are filtered
to those whose first topic equals the stored signature hash of the
CrossValidationRequested event, and the check succeeds only if some such
log's data equals the input job reference RIGHT-padded with zeros to 64 hex
characters (66 with the `0x` prefix), compared case-insensitively — an
equivalence when no verifier identity is given; on a false check the
pipeline fails with the event-not-found error. -/
theorem C2_event_match (sig job_id : String) (logs : List LogEntry) (v : Option Nat)
    (env : ValidationEnv) (now : Nat) (tx : String) (vid : Option Nat) :
    (check_event_in_transaction sig (.ok logs) job_id v = true →
       ∃ log ∈ logs, log.topics.head? = some sig ∧
         pyLower (ensure0x log.data) = pyLower (ljust (ensure0x job_id) 66 '0')) ∧
    (check_event_in_transaction sig (.ok logs) job_id none = true ↔
       ∃ log ∈ logs, log.topics.head? = some sig ∧
         pyLower (ensure0x log.data) = pyLower (ljust (ensure0x job_id) 66 '0')) ∧
    (check_event_in_transaction sig env.receipt job_id vid = false →
       (process_validation env sig now job_id (some tx) vid).writes =
         [validation_fail job_id now eventNotFoundMsg]) := by
  refine ⟨?_, check_event_ok_none_iff sig job_id logs, ?_⟩
  · intro h
    simp only [check_event_in_transaction, get_logs_from_transaction] at h
    revert h
    rcases hs : scanLogs (ljust (ensure0x job_id) 66 '0') v
        (logs.filter (fun log => log.topics.head? == some sig)) with _ | b
    · intro h
      exact Bool.noConfusion h
    · intro h
      replace h : b = true := h
      rw [h] at hs
      obtain ⟨l, hm, he⟩ := scanLogs_true_imp _ _ _ hs
      rw [List.mem_filter] at hm
      exact ⟨l, hm.1, eq_of_beq hm.2, he⟩
  · intro h
    unfold process_validation
    simp only [h, Bool.false_eq_true, if_false]

/-- C2 witness: a concrete successful check yields a filtered log whose data
equals the right-padded job reference. -/
theorem C2_event_match_witness :
    ∃ log ∈ [({ topics := ["0xaaaa"],
                data := "0xab" ++ String.mk (List.replicate 62 '0') } : LogEntry)],
      log.topics.head? = some ("0xaaaa") ∧
      pyLower (ensure0x log.data) = pyLower (ljust (ensure0x ("0xab")) 66 '0') :=
  (C2_event_match ("0xaaaa") ("0xab")
      [{ topics := ["0xaaaa"], data := "0xab" ++ String.mk (List.replicate 62 '0') }]
      none { receipt := .ok [], getJob := .error ("g"), aiReply := .error ("a"),
             writeTx := .error ("w") } 0 ("0xt") none).2.1.mp (by decide)


/-- C5: the pipeline is strictly ordered and fail-fast.  The performed
external calls always form a prefix of the full ordered sequence; a failed
event check stops the run at once with the terminal Failed record (no
contract read, AI call, or write follows); a failed retrieval prevents the
AI call and the write-back; a scoreless AI step prevents the write-back; and
every failing run ends with only Failed records written. -/
theorem C5_fail_fast (env : ValidationEnv) (sig : String) (now : Nat)
    (job_id : String) (vid : Option Nat) :
    (∀ tx, check_event_in_transaction sig env.receipt job_id vid = false →
       process_validation env sig now job_id (some tx) vid =
         { writes := [validation_fail job_id now eventNotFoundMsg],
           steps := [PipelineStep.eventCheck] }) ∧
    (∀ tid : Option String, ∃ k : Nat,
       (process_validation env sig now job_id tid vid).steps =
       (cond tid.isSome
         [PipelineStep.eventCheck, PipelineStep.jobFetch,
          PipelineStep.aiScore, PipelineStep.writeBack]
         [PipelineStep.jobFetch, PipelineStep.aiScore,
          PipelineStep.writeBack]).take k) ∧
    (get_job_details env.getJob = none → ∀ tid,
       PipelineStep.aiScore ∉ (process_validation env sig now job_id tid vid).steps ∧
       PipelineStep.writeBack ∉ (process_validation env sig now job_id tid vid).steps ∧
       ∀ r ∈ (process_validation env sig now job_id tid vid).writes,
         r.status = .failed) ∧
    (∀ jd, env.getJob = .ok jd →
       get_ai_validation_score (build_ai_context jd) jd.description env.aiReply = none →
       ∀ tid,
         PipelineStep.writeBack ∉ (process_validation env sig now job_id tid vid).steps ∧
         ∀ r ∈ (process_validation env sig now job_id tid vid).writes,
           r.status = .failed) ∧
    (∀ e, env.writeTx = .error e → ∀ tid,
       ∀ r ∈ (process_validation env sig now job_id tid vid).writes,
         r.status = .failed) := by
  refine ⟨?_, ?_, ?_, ?_, ?_⟩
  · intro tx h
    unfold process_validation
    simp only [h, Bool.false_eq_true, if_false]
  · intro tid
    rcases process_validation_total_cases env sig now job_id tid vid with
      ⟨tx, htid, hev, hrun⟩ | ⟨ef, pre, hpre, hrun⟩
    · subst htid
      rw [hrun]
      exact ⟨1, rfl⟩
    · obtain ⟨k, hk⟩ := validation_from_step2_take env now job_id vid ef
      rcases hpre with ⟨htid, hp, _⟩ | ⟨⟨tx, htid⟩, hp, _, _⟩ <;> subst htid <;> subst hp <;>
        rw [hrun, hk]
      · exact ⟨k, rfl⟩
      · exact ⟨k + 1, rfl⟩
  · intro hget tid
    rcases process_validation_total_cases env sig now job_id tid vid with
      ⟨tx, htid, hev, hrun⟩ | ⟨ef, pre, hpre, hrun⟩
    · rw [hrun]
      exact ⟨by simp, by simp, by simp [validation_fail]⟩
    · have hpre2 : pre = [] ∨ pre = [PipelineStep.eventCheck] := by
        rcases hpre with ⟨_, hp, _⟩ | ⟨_, hp, _, _⟩
        · exact Or.inl hp
        · exact Or.inr hp
      rw [hrun]
      rcases validation_from_step2_spec env now job_id vid ef with
        ⟨hn, h⟩ | ⟨jd, hs, hz, h⟩ | ⟨jd, hs, hz, ha, h⟩ |
        ⟨jd, sc, e, hs, hz, ha, hw, h⟩ | ⟨jd, sc, tx, hs, hz, ha, hw, h⟩
      · rw [h]
        rcases hpre2 with rfl | rfl <;>
          exact ⟨by simp, by simp, by simp [validation_fail]⟩
      all_goals rw [hget] at hs
      all_goals cases hs
  · intro jd hgj ha tid
    rcases process_validation_total_cases env sig now job_id tid vid with
      ⟨tx, htid, hev, hrun⟩ | ⟨ef, pre, hpre, hrun⟩
    · rw [hrun]
      exact ⟨by simp, by simp [validation_fail]⟩
    · have hpre2 : pre = [] ∨ pre = [PipelineStep.eventCheck] := by
        rcases hpre with ⟨_, hp, _⟩ | ⟨_, hp, _, _⟩
        · exact Or.inl hp
        · exact Or.inr hp
      rw [hrun]
      rcases validation_from_step2_spec env now job_id vid ef with
        ⟨hn, h⟩ | ⟨jd', hs, hz, h⟩ | ⟨jd', hs, hz, ha', h⟩ |
        ⟨jd', sc, e, hs, hz, ha', hw, h⟩ | ⟨jd', sc, tx, hs, hz, ha', hw, h⟩
      · rw [hgj] at hn
        exact absurd hn (by simp [get_job_details])
      · rw [h]
        rcases hpre2 with rfl | rfl <;> exact ⟨by simp, by simp [validation_fail]⟩
      · rw [h]
        rcases hpre2 with rfl | rfl <;> exact ⟨by simp, by simp [validation_fail]⟩
      all_goals rw [hgj] at hs
      all_goals simp only [get_job_details, Option.some.injEq] at hs
      all_goals subst hs
      all_goals rw [ha] at ha'
      all_goals cases ha'
  · intro e hw2 tid
    rcases process_validation_total_cases env sig now job_id tid vid with
      ⟨tx, htid, hev, hrun⟩ | ⟨ef, pre, hpre, hrun⟩
    · rw [hrun]
      simp [validation_fail]
    · rw [hrun]
      rcases validation_from_step2_spec env now job_id vid ef with
        ⟨hn, h⟩ | ⟨jd, hs, hz, h⟩ | ⟨jd, hs, hz, ha, h⟩ |
        ⟨jd, sc, e2, hs, hz, ha, hw, h⟩ | ⟨jd, sc, tx, hs, hz, ha, hw, h⟩
      · rw [h]
        simp [validation_fail]
      · rw [h]
        simp [validation_fail]
      · rw [h]
        simp [validation_fail]
      · rw [h]
        simp [validation_fail]
      · rw [hw2] at hw
        cases hw

/-- C5 witness: a concrete run with a transaction reference whose event check
fails stops after the event check with the terminal Failed record. -/
theorem C5_fail_fast_witness :
    process_validation
        { receipt := .ok [], getJob := .ok sampleJob,
          aiReply := .ok ("85"), writeTx := .ok ("0xtx") }
        ("0xsig") 1 ("0xjob") (some ("0xt")) none =
      { writes := [validation_fail ("0xjob") 1 eventNotFoundMsg],
        steps := [PipelineStep.eventCheck] } :=
  (C5_fail_fast _ ("0xsig") 1 ("0xjob") none).1 ("0xt") (by decide)

end DisputeAgent
